import Mathlib

/-!
Verification of the sunday-chicken-app record lifecycle and metrics
derivation core, shallowly embedded from the TypeScript sources:
`src/frontend/utils/calculations.ts`, `src/frontend/components/PurchaseForm.tsx`,
`src/frontend/components/SalesForm.tsx`, and the `WeeklyRecord` type.

JavaScript numbers are modelled as rationals (ℚ); optional fields as
`Option ℚ` / `Option String`, where `none` models `undefined` (and, for
form text fields, the empty string). The JS falsy coalescing `x || d` is
modelled explicitly (`jsOrQ`, `jsOrStr`): `0`, `undefined` and `""` are
falsy.
-/

namespace SundayChicken

/-- The `WeeklyRecord` interface from the repository's types module:
raw purchase fields, the completion flag, optional sales fields and the
optional computed-metric fields. -/
structure WeeklyRecord where
  id : String
  weekDate : String
  createdAt : Option String
  salesCompletedAt : Option String
  totalHens : ℚ
  totalLiveWeight : ℚ
  purchaseRate : ℚ
  totalPurchaseCost : ℚ
  isSalesEntryComplete : Bool
  sellingPrice : Option ℚ
  cashCollected : Option ℚ
  upiCollected : Option ℚ
  expenseTea : Option ℚ
  expenseFuel : Option ℚ
  totalExpenses : Option ℚ
  totalRevenue : Option ℚ
  meatSold : Option ℚ
  wastage : Option ℚ
  wastagePercentage : Option ℚ
  netProfit : Option ℚ
  profitPerHen : Option ℚ
  profitPerKg : Option ℚ
deriving DecidableEq, Repr

/-- JS `o || d` on an optional number: `undefined` and `0` are falsy. -/
def jsOrQ (o : Option ℚ) (d : ℚ) : ℚ :=
  match o with
  | none => d
  | some v => if v = 0 then d else v

/-- JS `o || d` on an optional string: `undefined` and `""` are falsy. -/
def jsOrStr (o : Option String) (d : String) : String :=
  match o with
  | none => d
  | some s => if s = "" then d else s

/-- `calculateRecordMetrics` from `src/frontend/utils/calculations.ts`,
the repository's `deriveMetrics`. -/
def calculateRecordMetrics (record : WeeklyRecord) : WeeklyRecord :=
  let totalPurchaseCost := record.totalLiveWeight * record.purchaseRate
  if record.isSalesEntryComplete = false then
    { record with totalPurchaseCost := totalPurchaseCost }
  else
    let sellingPrice := jsOrQ record.sellingPrice 0
    let cash := jsOrQ record.cashCollected 0
    let upi := jsOrQ record.upiCollected 0
    let expenseTea := jsOrQ record.expenseTea 0
    let expenseFuel := jsOrQ record.expenseFuel 0
    let totalRevenue := cash + upi
    let meatSold := if sellingPrice > 0 then totalRevenue / sellingPrice else 0
    let wastage := record.totalLiveWeight - meatSold
    let wastagePercentage :=
      if record.totalLiveWeight > 0 then (wastage / record.totalLiveWeight) * 100 else 0
    let totalExpenses := expenseTea + expenseFuel
    let netProfit := totalRevenue - (totalPurchaseCost + totalExpenses)
    let profitPerHen := if record.totalHens > 0 then netProfit / record.totalHens else 0
    let profitPerKg := if meatSold > 0 then netProfit / meatSold else 0
    { record with
      totalPurchaseCost := totalPurchaseCost
      totalRevenue := some totalRevenue
      meatSold := some meatSold
      wastage := some wastage
      wastagePercentage := some wastagePercentage
      totalExpenses := some totalExpenses
      netProfit := some netProfit
      profitPerHen := some profitPerHen
      profitPerKg := some profitPerKg }

/-- All sales-stage computed fields of a record are unset (`undefined`). -/
def salesStageUnset (r : WeeklyRecord) : Prop :=
  r.totalRevenue = none ∧ r.meatSold = none ∧ r.wastage = none ∧
  r.wastagePercentage = none ∧ r.totalExpenses = none ∧ r.netProfit = none ∧
  r.profitPerHen = none ∧ r.profitPerKg = none

instance (r : WeeklyRecord) : Decidable (salesStageUnset r) := by
  unfold salesStageUnset; infer_instance

/-- A sample purchase-only record used to instantiate universally
quantified theorems at a concrete input. -/
def samplePurchase : WeeklyRecord :=
  { id := "r1", weekDate := "2024-06-01", createdAt := some "2024-06-01T08:00:00Z"
    salesCompletedAt := none
    totalHens := 100, totalLiveWeight := 150, purchaseRate := 80
    totalPurchaseCost := 0, isSalesEntryComplete := false
    sellingPrice := none, cashCollected := none, upiCollected := none
    expenseTea := none, expenseFuel := none, totalExpenses := none
    totalRevenue := none, meatSold := none, wastage := none
    wastagePercentage := none, netProfit := none
    profitPerHen := none, profitPerKg := none }

/-- The `PurchaseForm` input state: each numeric field is the text of an
`<input>`; `none` models the empty string, `some q` a numeric string of
value `q` (so JS `Number(field)` is `getD 0`, since `Number("") = 0`). -/
structure PurchaseFormData where
  date : String
  totalHens : Option ℚ
  totalLiveWeight : Option ℚ
  purchaseRate : Option ℚ
deriving DecidableEq, Repr

/-- The `SalesForm` input state (same text-field convention). -/
structure SalesFormData where
  totalHens : Option ℚ
  totalLiveWeight : Option ℚ
  purchaseRate : Option ℚ
  sellingPrice : Option ℚ
  cashCollected : Option ℚ
  upiCollected : Option ℚ
  expenseTea : Option ℚ
  expenseFuel : Option ℚ
deriving DecidableEq, Repr

/-- JS `Number(textField)` on a form text field: empty string gives 0. -/
def fieldNum (o : Option ℚ) : ℚ := o.getD 0

/-- The per-field error mapping built by `PurchaseForm.validate`. -/
structure PurchaseErrors where
  date : Option String
  totalHens : Option String
  totalLiveWeight : Option String
  purchaseRate : Option String
deriving DecidableEq, Repr

/-- The per-field error mapping built by `SalesForm.validate`. -/
structure SalesErrors where
  totalHens : Option String
  totalLiveWeight : Option String
  purchaseRate : Option String
  sellingPrice : Option String
  cashCollected : Option String
  upiCollected : Option String
  expenseTea : Option String
  expenseFuel : Option String
  general : Option String
deriving DecidableEq, Repr

/-- The check `!field || Number(field) <= 0` shared by the weight, rate and
selling-price validations: the text field is empty or its value is ≤ 0
(JS `!s` on a text field is `s = ""`, modelled `isNone`). -/
def reqPosBad (o : Option ℚ) : Bool :=
  o.isNone || decide (fieldNum o ≤ 0)

/-- The check `!field || hens <= 0 || !Number.isInteger(hens)` for
`totalHens`: `Number.isInteger` on a rational is `den = 1`. -/
def reqPosIntBad (o : Option ℚ) : Bool :=
  o.isNone || decide (fieldNum o ≤ 0) || !(decide ((fieldNum o).den = 1))

/-- The check `Number(field) < 0` for collections and expenses. -/
def negBad (o : Option ℚ) : Bool :=
  decide (fieldNum o < 0)

/-- The check `price > 0 && (Number(cash) + Number(upi) <= 0)` in
`SalesForm.validate`. -/
def salesGeneralBad (f : SalesFormData) : Bool :=
  decide (0 < fieldNum f.sellingPrice) &&
    decide (fieldNum f.cashCollected + fieldNum f.upiCollected ≤ 0)

/-- `validate` from `PurchaseForm.tsx`: returns the error mapping and the
`isValid` flag. The flag is false exactly when some check fired, since the
code sets `isValid = false` alongside every error it records. -/
def purchaseValidate (f : PurchaseFormData) : PurchaseErrors × Bool :=
  ({ date := if f.date = "" then some "Date is required" else none
     totalHens := if reqPosIntBad f.totalHens then some "Must be a positive whole number" else none
     totalLiveWeight := if reqPosBad f.totalLiveWeight then some "Weight must be greater than 0" else none
     purchaseRate := if reqPosBad f.purchaseRate then some "Rate must be greater than 0" else none },
   !(decide (f.date = "") || reqPosIntBad f.totalHens ||
     reqPosBad f.totalLiveWeight || reqPosBad f.purchaseRate))

/-- `validate` from `SalesForm.tsx`: the editable purchase fields, the
selling price, the collections (each ≥ 0, and cash + upi > 0 when the
price is set) and the expenses, with the error mapping built field by
field. -/
def salesValidate (f : SalesFormData) : SalesErrors × Bool :=
  ({ totalHens := if reqPosIntBad f.totalHens then some "Must be a positive whole number" else none
     totalLiveWeight := if reqPosBad f.totalLiveWeight then some "Weight must be > 0" else none
     purchaseRate := if reqPosBad f.purchaseRate then some "Rate must be > 0" else none
     sellingPrice := if reqPosBad f.sellingPrice then some "Price must be greater than 0" else none
     cashCollected := if negBad f.cashCollected then some "Cannot be negative" else none
     upiCollected := if negBad f.upiCollected then some "Cannot be negative" else none
     expenseTea := if negBad f.expenseTea then some "Invalid" else none
     expenseFuel := if negBad f.expenseFuel then some "Invalid" else none
     general := if salesGeneralBad f then some "Total revenue (Cash + UPI) must be greater than 0" else none },
   !(reqPosIntBad f.totalHens || reqPosBad f.totalLiveWeight || reqPosBad f.purchaseRate ||
     reqPosBad f.sellingPrice || negBad f.cashCollected || negBad f.upiCollected ||
     salesGeneralBad f || negBad f.expenseTea || negBad f.expenseFuel))

/-- `handleSubmit` from `PurchaseForm.tsx`: when validation fails nothing
is saved (`none`); otherwise the record passed to `onSave` is built,
preserving the existing record's id, creation time, completion flag and
sales data. `now` stands for `new Date().toISOString()`. -/
def purchaseHandleSubmit (existingRecord : Option WeeklyRecord)
    (f : PurchaseFormData) (now : String) : Option WeeklyRecord :=
  if (purchaseValidate f).2 = false then none
  else some
    { id := jsOrStr (existingRecord.map (·.id)) ""
      weekDate := f.date
      totalHens := fieldNum f.totalHens
      totalLiveWeight := fieldNum f.totalLiveWeight
      purchaseRate := fieldNum f.purchaseRate
      totalPurchaseCost := 0
      createdAt := some (jsOrStr (existingRecord.bind (·.createdAt)) now)
      isSalesEntryComplete := (existingRecord.map (·.isSalesEntryComplete)).getD false
      salesCompletedAt := existingRecord.bind (·.salesCompletedAt)
      sellingPrice := existingRecord.bind (·.sellingPrice)
      cashCollected := existingRecord.bind (·.cashCollected)
      upiCollected := existingRecord.bind (·.upiCollected)
      expenseTea := existingRecord.bind (·.expenseTea)
      expenseFuel := existingRecord.bind (·.expenseFuel)
      totalExpenses := none
      totalRevenue := none
      meatSold := none
      wastage := none
      wastagePercentage := none
      netProfit := none
      profitPerHen := none
      profitPerKg := none }

/-- `handleSubmit` from `SalesForm.tsx`: when validation fails nothing is
saved (`none`); otherwise the record is updated with the (editable)
purchase fields and the sales fields, `isSalesEntryComplete` is set and
`salesCompletedAt` is stamped with `now` (`new Date().toISOString()`). -/
def salesHandleSubmit (record : WeeklyRecord) (f : SalesFormData)
    (now : String) : Option WeeklyRecord :=
  if (salesValidate f).2 = false then none
  else some
    { record with
      totalHens := fieldNum f.totalHens
      totalLiveWeight := fieldNum f.totalLiveWeight
      purchaseRate := fieldNum f.purchaseRate
      isSalesEntryComplete := true
      salesCompletedAt := some now
      sellingPrice := some (fieldNum f.sellingPrice)
      cashCollected := some (fieldNum f.cashCollected)
      upiCollected := some (fieldNum f.upiCollected)
      expenseTea := some (fieldNum f.expenseTea)
      expenseFuel := some (fieldNum f.expenseFuel) }

/-- Live revenue preview in `SalesForm`: `Number(cash) + Number(upi)`. -/
def salesRevenuePreview (f : SalesFormData) : ℚ :=
  fieldNum f.cashCollected + fieldNum f.upiCollected

/-- `estMeatSold` in `SalesForm`: trial derivation of meat sold from the
current form values, with the division-by-zero guard. -/
def estMeatSold (f : SalesFormData) : ℚ :=
  if fieldNum f.sellingPrice > 0 then salesRevenuePreview f / fieldNum f.sellingPrice else 0

/-- `currentLiveWeight` in `SalesForm`: `Number(totalLiveWeight) || 0`. -/
def currentLiveWeight (f : SalesFormData) : ℚ :=
  let w := fieldNum f.totalLiveWeight
  if w = 0 then 0 else w

/-- The consistency warning in `SalesForm`: the alert element is rendered
exactly when `estMeatSold > currentLiveWeight`. -/
def salesWarning (f : SalesFormData) : Bool :=
  decide (estMeatSold f > currentLiveWeight f)

/-- The derived meat-sold value of the sales branch of
`calculateRecordMetrics` (its `meatSold` local). -/
def derivedMeatSold (r : WeeklyRecord) : ℚ :=
  if 0 < jsOrQ r.sellingPrice 0
  then (jsOrQ r.cashCollected 0 + jsOrQ r.upiCollected 0) / jsOrQ r.sellingPrice 0
  else 0

/-- The empty `PurchaseForm` error mapping (no check fired). -/
def noPurchaseErrors : PurchaseErrors :=
  { date := none, totalHens := none, totalLiveWeight := none, purchaseRate := none }

/-- The empty `SalesForm` error mapping (no check fired). -/
def noSalesErrors : SalesErrors :=
  { totalHens := none, totalLiveWeight := none, purchaseRate := none, sellingPrice := none,
    cashCollected := none, upiCollected := none, expenseTea := none, expenseFuel := none,
    general := none }

/-- The spec's sales-complete worked example: liveWeight 150 at rate 80,
selling price 100, cash 6000, upi 4000, tea 50, fuel 100. -/
def sampleComplete : WeeklyRecord :=
  { samplePurchase with
    isSalesEntryComplete := true,
    sellingPrice := some 100,
    cashCollected := some 6000,
    upiCollected := some 4000,
    expenseTea := some 50,
    expenseFuel := some 100 }

/-- The spec's degenerate-guard example: selling price 0 with cash 500. -/
def sampleZeroPrice : WeeklyRecord :=
  { samplePurchase with
    isSalesEntryComplete := true,
    sellingPrice := some 0,
    cashCollected := some 500,
    upiCollected := some 0 }

/-- The spec's oversold example: live weight 50 but revenue 600 at selling
price 10, so 60 kg of meat sold. -/
def sampleOversold : WeeklyRecord :=
  { samplePurchase with
    totalLiveWeight := 50,
    isSalesEntryComplete := true,
    sellingPrice := some 10,
    cashCollected := some 600,
    upiCollected := some 0 }

/-- A record that already completed its sales entry at a known time. -/
def alreadyCompleted : WeeklyRecord :=
  { sampleComplete with salesCompletedAt := some "2024-06-02T10:00:00Z" }

/-- A fully valid sales-form submission. -/
def resubmitForm : SalesFormData :=
  { totalHens := some 100, totalLiveWeight := some 150, purchaseRate := some 80,
    sellingPrice := some 100, cashCollected := some 6000, upiCollected := some 4000,
    expenseTea := some 50, expenseFuel := some 100 }

/-- A fully valid purchase-form submission. -/
def samplePForm : PurchaseFormData :=
  { date := "2024-06-01", totalHens := some 100, totalLiveWeight := some 150,
    purchaseRate := some 80 }

/-- The spec's consistency-warning example as a sales form: live weight 50,
selling price 10, cash 600, upi 0 (so 60 kg of estimated meat sold). -/
def warnForm : SalesFormData :=
  { totalHens := some 10, totalLiveWeight := some 50, purchaseRate := some 8,
    sellingPrice := some 10, cashCollected := some 600, upiCollected := some 0,
    expenseTea := none, expenseFuel := none }

/-- A purchase form with `totalHens = 0` (invalid: not positive). -/
def badHensForm : PurchaseFormData :=
  { date := "2024-06-01", totalHens := some 0, totalLiveWeight := some 150,
    purchaseRate := some 80 }

/-- A purchase form with `totalHens = 2.5` (invalid: not an integer). -/
def fracHensForm : PurchaseFormData :=
  { date := "2024-06-01", totalHens := some (5/2), totalLiveWeight := some 150,
    purchaseRate := some 80 }

/-- JS `x || 0` on an optional number agrees with defaulting to 0, since
the only extra falsy value, 0 itself, is mapped to the same default. -/
theorem jsOrQ_zero (o : Option ℚ) : jsOrQ o 0 = o.getD 0 := by
  cases o with
  | none => rfl
  | some v => by_cases h : v = 0 <;> simp [jsOrQ, h]

/-- `Number(w) || 0` is just `Number(w)` for the live-weight preview. -/
theorem currentLiveWeight_eq (f : SalesFormData) :
    currentLiveWeight f = fieldNum f.totalLiveWeight := by
  unfold currentLiveWeight
  by_cases h : fieldNum f.totalLiveWeight = 0 <;> simp [h]

/-- The shared positive-field check fails to fire exactly on a positive
entered value. -/
theorem reqPosBad_iff (o : Option ℚ) : reqPosBad o = false ↔ 0 < fieldNum o := by
  cases o <;> simp [reqPosBad, fieldNum]

/-- The `totalHens` check fails to fire exactly on a positive integer. -/
theorem reqPosIntBad_iff (o : Option ℚ) :
    reqPosIntBad o = false ↔ (0 < fieldNum o ∧ (fieldNum o).den = 1) := by
  cases o with
  | none => simp [reqPosIntBad, fieldNum]
  | some v => by_cases h : v.den = 1 <;> simp [reqPosIntBad, fieldNum, h, not_le]

/-- The negativity check fails to fire exactly on a nonnegative value. -/
theorem negBad_iff (o : Option ℚ) : negBad o = false ↔ 0 ≤ fieldNum o := by
  simp [negBad, not_lt]

/-- The zero-realized-revenue check fails to fire exactly when a set price
comes with positive collections. -/
theorem salesGeneralBad_iff (f : SalesFormData) :
    salesGeneralBad f = false ↔
      (0 < fieldNum f.sellingPrice →
        0 < fieldNum f.cashCollected + fieldNum f.upiCollected) := by
  simp [salesGeneralBad, not_le, imp_iff_not_or, not_lt]

/-- An error-mapping entry is absent exactly when its check did not fire. -/
theorem iteSomeNone (b : Bool) (m : String) :
    (if b then some m else none) = none ↔ b = false := by
  cases b <;> simp

/-- C1: `calculateRecordMetrics` sets
`totalPurchaseCost = totalLiveWeight × purchaseRate` for every record, in
both the purchase-only and the sales-complete state; and on a valid
purchase-only record (sales-stage computed fields unset,
`isSalesEntryComplete = false`) it sets only the purchase cost, leaving
every sales-stage computed field unset in the result. -/
theorem calculateRecordMetrics_cost_and_purchase_frame (r : WeeklyRecord) :
    (calculateRecordMetrics r).totalPurchaseCost = r.totalLiveWeight * r.purchaseRate ∧
    (r.isSalesEntryComplete = false → salesStageUnset r →
      salesStageUnset (calculateRecordMetrics r)) := by
  constructor
  · by_cases h : r.isSalesEntryComplete = false <;> simp [calculateRecordMetrics, h]
  · intro hflag hunset
    simpa [calculateRecordMetrics, hflag, salesStageUnset] using hunset

/-- Witness for C1: the purchase-only sample (150 kg at rate 80) gets
purchase cost 12000 and keeps all sales-stage computed fields unset. -/
theorem calculateRecordMetrics_cost_and_purchase_frame_witness :
    (calculateRecordMetrics samplePurchase).totalPurchaseCost =
      samplePurchase.totalLiveWeight * samplePurchase.purchaseRate ∧
    salesStageUnset (calculateRecordMetrics samplePurchase) :=
  ⟨(calculateRecordMetrics_cost_and_purchase_frame samplePurchase).1,
   (calculateRecordMetrics_cost_and_purchase_frame samplePurchase).2 rfl
     (by simp [samplePurchase, salesStageUnset])⟩

/-- C2: on a sales-complete record, `calculateRecordMetrics` sets
`totalRevenue = cashCollected + upiCollected` (missing components treated
as 0) and `meatSold = totalRevenue / sellingPrice` when the selling price
is positive, 0 otherwise; in particular a zero or unset selling price
yields `meatSold = 0` regardless of revenue. -/
theorem calculateRecordMetrics_revenue_meat_sold (r : WeeklyRecord)
    (h : r.isSalesEntryComplete = true) :
    (calculateRecordMetrics r).totalRevenue =
      some (r.cashCollected.getD 0 + r.upiCollected.getD 0) ∧
    (calculateRecordMetrics r).meatSold =
      some (if 0 < r.sellingPrice.getD 0
        then (r.cashCollected.getD 0 + r.upiCollected.getD 0) / r.sellingPrice.getD 0
        else 0) ∧
    (r.sellingPrice.getD 0 = 0 → (calculateRecordMetrics r).meatSold = some 0) := by
  refine ⟨?_, ?_, ?_⟩
  · simp [calculateRecordMetrics, h, jsOrQ_zero]
  · simp [calculateRecordMetrics, h, jsOrQ_zero]
  · intro hp
    simp [calculateRecordMetrics, h, jsOrQ_zero, hp]

/-- Witness for C2: selling price 0 with cash 500 and upi 0 gives revenue
500, meat sold 0, wastage equal to the full live weight, and a net profit
computed from the orphaned revenue 500. -/
theorem calculateRecordMetrics_revenue_meat_sold_witness :
    sampleZeroPrice.isSalesEntryComplete = true ∧
    (calculateRecordMetrics sampleZeroPrice).totalRevenue = some 500 ∧
    (calculateRecordMetrics sampleZeroPrice).meatSold = some 0 ∧
    (calculateRecordMetrics sampleZeroPrice).wastage =
      some sampleZeroPrice.totalLiveWeight ∧
    (calculateRecordMetrics sampleZeroPrice).netProfit = some (500 - (12000 + 0)) := by
  have h := calculateRecordMetrics_revenue_meat_sold sampleZeroPrice rfl
  refine ⟨rfl, ?_, ?_, ?_, ?_⟩
  · simpa [sampleZeroPrice, samplePurchase] using h.1
  · exact h.2.2 (by simp [sampleZeroPrice, samplePurchase])
  · simp [calculateRecordMetrics, sampleZeroPrice, samplePurchase, jsOrQ]
  · simp [calculateRecordMetrics, sampleZeroPrice, samplePurchase, jsOrQ]
    norm_num

/-- C3: on a sales-complete record, `calculateRecordMetrics` sets
`totalExpenses = expenseTea + expenseFuel` (missing components treated as
0) and `netProfit = totalRevenue − (totalPurchaseCost + totalExpenses)`,
with losses returned as negative values, not clamped to zero. -/
theorem calculateRecordMetrics_expenses_net_profit (r : WeeklyRecord)
    (h : r.isSalesEntryComplete = true) :
    (calculateRecordMetrics r).totalExpenses =
      some (r.expenseTea.getD 0 + r.expenseFuel.getD 0) ∧
    (calculateRecordMetrics r).netProfit =
      some ((r.cashCollected.getD 0 + r.upiCollected.getD 0) -
        (r.totalLiveWeight * r.purchaseRate +
          (r.expenseTea.getD 0 + r.expenseFuel.getD 0))) := by
  constructor <;> simp [calculateRecordMetrics, h, jsOrQ_zero]

/-- Witness for C3: the worked example (liveWeight 150, rate 80, price 100,
cash 6000, upi 4000, tea 50, fuel 100) yields expenses 150 and the loss
netProfit = 10000 − (12000 + 150) = −2150. -/
theorem calculateRecordMetrics_expenses_net_profit_witness :
    sampleComplete.totalLiveWeight = 150 ∧ sampleComplete.purchaseRate = 80 ∧
    (calculateRecordMetrics sampleComplete).totalExpenses = some 150 ∧
    (calculateRecordMetrics sampleComplete).netProfit = some (-2150) := by
  have h := calculateRecordMetrics_expenses_net_profit sampleComplete rfl
  refine ⟨rfl, rfl, ?_, ?_⟩
  · rw [h.1]
    simp [sampleComplete, samplePurchase]
    norm_num
  · rw [h.2]
    simp [sampleComplete, samplePurchase]
    norm_num

/-- C4: on a sales-complete record, `calculateRecordMetrics` sets
`wastage = totalLiveWeight − meatSold` with no clamping: whenever the
derived meat sold exceeds the live weight the stored wastage is
negative. -/
theorem calculateRecordMetrics_wastage_unclamped (r : WeeklyRecord)
    (h : r.isSalesEntryComplete = true) :
    (calculateRecordMetrics r).wastage = some (r.totalLiveWeight - derivedMeatSold r) ∧
    (r.totalLiveWeight < derivedMeatSold r →
      r.totalLiveWeight - derivedMeatSold r < 0) := by
  constructor
  · simp [calculateRecordMetrics, h, derivedMeatSold]
  · intro hlt
    linarith

/-- Witness for C4: live weight 50 with 60 kg of derived meat sold stores
wastage −10, returned as-is. -/
theorem calculateRecordMetrics_wastage_unclamped_witness :
    (calculateRecordMetrics sampleOversold).wastage = some (-10) ∧
    sampleOversold.totalLiveWeight < derivedMeatSold sampleOversold := by
  have h := calculateRecordMetrics_wastage_unclamped sampleOversold rfl
  constructor
  · rw [h.1]
    simp [sampleOversold, samplePurchase, derivedMeatSold, jsOrQ]
    norm_num
  · simp [sampleOversold, samplePurchase, derivedMeatSold, jsOrQ]
    norm_num

/-- Counterexample to C5 as stated: re-submitting sales data for a record
that is already sales-complete does NOT preserve the original
`salesCompletedAt`; the submission handler overwrites it with the current
time. -/
theorem salesSubmit_overwrites_completion_time_counterexample :
    alreadyCompleted.isSalesEntryComplete = true ∧
    alreadyCompleted.salesCompletedAt = some "2024-06-02T10:00:00Z" ∧
    (salesHandleSubmit alreadyCompleted resubmitForm "2024-06-09T11:00:00Z").map
        (fun rec => rec.salesCompletedAt) = some (some "2024-06-09T11:00:00Z") ∧
    (some "2024-06-09T11:00:00Z" : Option String) ≠ some "2024-06-02T10:00:00Z" := by
  have hv : (salesValidate resubmitForm).2 = true := by
    norm_num [salesValidate, reqPosIntBad, reqPosBad, negBad, salesGeneralBad,
      fieldNum, resubmitForm]
  refine ⟨rfl, rfl, ?_, by simp⟩
  simp [salesHandleSubmit, hv]

/-- C5 (amended): every successful sales submission stamps
`salesCompletedAt = now` unconditionally, overwriting any previously
recorded completion time. -/
theorem salesSubmit_always_stamps_completion_time (r : WeeklyRecord)
    (f : SalesFormData) (now : String) (rec : WeeklyRecord)
    (h : salesHandleSubmit r f now = some rec) :
    rec.salesCompletedAt = some now := by
  unfold salesHandleSubmit at h
  split at h
  · cases h
  · cases h; rfl

/-- Witness for amended C5: a concrete valid submission stamps the given
time. -/
theorem salesSubmit_always_stamps_completion_time_witness :
    (salesHandleSubmit samplePurchase resubmitForm "2024-06-08T09:00:00Z").map
      (fun rec => rec.salesCompletedAt) = some (some "2024-06-08T09:00:00Z") := by
  cases hrec : salesHandleSubmit samplePurchase resubmitForm "2024-06-08T09:00:00Z" with
  | none =>
      norm_num [salesHandleSubmit, salesValidate, reqPosIntBad, reqPosBad, negBad,
        salesGeneralBad, fieldNum, resubmitForm] at hrec
      exact (Option.some_ne_none _ hrec).elim
  | some rec => simp [salesSubmit_always_stamps_completion_time _ _ _ _ hrec]

/-- C6: `calculateRecordMetrics` is idempotent — it reads only raw fields
and overwrites computed fields, so recomputation does not drift. -/
theorem calculateRecordMetrics_idempotent (r : WeeklyRecord) :
    calculateRecordMetrics (calculateRecordMetrics r) = calculateRecordMetrics r := by
  by_cases h : r.isSalesEntryComplete = false <;> simp [calculateRecordMetrics, h]

/-- C7: no core operation clears `isSalesEntryComplete` back to false: a
purchase edit of an existing record preserves the flag, a sales submission
sets it to true, and `calculateRecordMetrics` leaves it unchanged. -/
theorem completion_flag_never_cleared :
    (∀ (ex : WeeklyRecord) (f : PurchaseFormData) (now : String) (rec : WeeklyRecord),
        purchaseHandleSubmit (some ex) f now = some rec →
        ex.isSalesEntryComplete = true → rec.isSalesEntryComplete = true) ∧
    (∀ (r : WeeklyRecord) (f : SalesFormData) (now : String) (rec : WeeklyRecord),
        salesHandleSubmit r f now = some rec → rec.isSalesEntryComplete = true) ∧
    (∀ r : WeeklyRecord,
        (calculateRecordMetrics r).isSalesEntryComplete = r.isSalesEntryComplete) := by
  refine ⟨?_, ?_, ?_⟩
  · intro ex f now rec h hex
    unfold purchaseHandleSubmit at h
    split at h
    · cases h
    · cases h; simpa using hex
  · intro r f now rec h
    unfold salesHandleSubmit at h
    split at h
    · cases h
    · cases h; rfl
  · intro r
    by_cases h : r.isSalesEntryComplete = false <;> simp [calculateRecordMetrics, h]

/-- Witness for C7: editing the purchase fields of a completed record
keeps the completion flag set. -/
theorem completion_flag_never_cleared_witness :
    (purchaseHandleSubmit (some alreadyCompleted) samplePForm "2024-06-03T09:00:00Z").map
      (fun rec => rec.isSalesEntryComplete) = some true := by
  cases hrec : purchaseHandleSubmit (some alreadyCompleted) samplePForm "2024-06-03T09:00:00Z" with
  | none =>
      norm_num [purchaseHandleSubmit, purchaseValidate, reqPosIntBad, reqPosBad,
        fieldNum, samplePForm] at hrec
      exact (Option.some_ne_none _ (hrec (by decide))).elim
  | some rec => simp [completion_flag_never_cleared.1 _ _ _ _ hrec rfl]

/-- C8: the purchase validation accepts exactly when the week date is
present, `totalHens` is a positive integer, and the live weight and rate
are positive; the sales validation accepts exactly when additionally the
selling price is positive, both collections are nonnegative with a
positive sum, and both expenses are nonnegative; and on any rejection the
handler saves nothing (`onSave` is never reached) while the per-field
error mapping is nonempty. -/
theorem validation_acceptance_and_rejection :
    (∀ f : PurchaseFormData, (purchaseValidate f).2 = true ↔
      (f.date ≠ "" ∧ 0 < fieldNum f.totalHens ∧ (fieldNum f.totalHens).den = 1 ∧
       0 < fieldNum f.totalLiveWeight ∧ 0 < fieldNum f.purchaseRate)) ∧
    (∀ f : SalesFormData, (salesValidate f).2 = true ↔
      (0 < fieldNum f.totalHens ∧ (fieldNum f.totalHens).den = 1 ∧
       0 < fieldNum f.totalLiveWeight ∧ 0 < fieldNum f.purchaseRate ∧
       0 < fieldNum f.sellingPrice ∧ 0 ≤ fieldNum f.cashCollected ∧
       0 ≤ fieldNum f.upiCollected ∧
       0 < fieldNum f.cashCollected + fieldNum f.upiCollected ∧
       0 ≤ fieldNum f.expenseTea ∧ 0 ≤ fieldNum f.expenseFuel)) ∧
    (∀ (ex : Option WeeklyRecord) (f : PurchaseFormData) (now : String),
      (purchaseValidate f).2 = false →
      purchaseHandleSubmit ex f now = none ∧ (purchaseValidate f).1 ≠ noPurchaseErrors) ∧
    (∀ (r : WeeklyRecord) (f : SalesFormData) (now : String),
      (salesValidate f).2 = false →
      salesHandleSubmit r f now = none ∧ (salesValidate f).1 ≠ noSalesErrors) := by
  refine ⟨?_, ?_, ?_, ?_⟩
  · intro f
    simp only [purchaseValidate, Bool.not_eq_true', Bool.or_eq_false_iff,
      decide_eq_false_iff_not, reqPosBad_iff, reqPosIntBad_iff]
    tauto
  · intro f
    simp only [salesValidate, Bool.not_eq_true', Bool.or_eq_false_iff,
      reqPosBad_iff, reqPosIntBad_iff, negBad_iff, salesGeneralBad_iff]
    constructor
    · rintro ⟨⟨⟨⟨⟨⟨⟨⟨h1, h2⟩, h3⟩, h4⟩, h5⟩, h6⟩, h7⟩, h8⟩, h9⟩
      exact ⟨h1.1, h1.2, h2, h3, h4, h5, h6, h7 h4, h8, h9⟩
    · rintro ⟨h1, h2, h3, h4, h5, h6, h7, h8, h9, h10⟩
      exact ⟨⟨⟨⟨⟨⟨⟨⟨⟨h1, h2⟩, h3⟩, h4⟩, h5⟩, h6⟩, h7⟩, fun _ => h8⟩, h9⟩, h10⟩
  · intro ex f now h
    refine ⟨by simp [purchaseHandleSubmit, h], ?_⟩
    intro hEq
    simp only [purchaseValidate, noPurchaseErrors, PurchaseErrors.mk.injEq, iteSomeNone,
      ite_eq_right_iff, reduceCtorEq] at hEq
    simp only [purchaseValidate, Bool.not_eq_false', Bool.or_eq_true] at h
    rcases hEq with ⟨h1, h2, h3, h4⟩
    rcases h with ((hd | hh) | hw) | hr
    · simp only [decide_eq_true_iff] at hd
      exact (h1 hd).elim
    · simp [hh] at h2
    · simp [hw] at h3
    · simp [hr] at h4
  · intro r f now h
    refine ⟨by simp [salesHandleSubmit, h], ?_⟩
    intro hEq
    simp only [salesValidate, noSalesErrors, SalesErrors.mk.injEq, iteSomeNone,
      ite_eq_right_iff, reduceCtorEq] at hEq
    simp only [salesValidate, Bool.not_eq_false', Bool.or_eq_true] at h
    rcases hEq with ⟨h1, h2, h3, h4, h5, h6, h7, h8, h9⟩
    rcases h with ((((((((hh | hw) | hr) | hp) | hc) | hu) | hg) | ht) | hf)
    · simp [hh] at h1
    · simp [hw] at h2
    · simp [hr] at h3
    · simp [hp] at h4
    · simp [hc] at h5
    · simp [hu] at h6
    · simp [hg] at h9
    · simp [ht] at h7
    · simp [hf] at h8

/-- Witness for C8: `totalHens = 0` and `totalHens = 2.5` are both
rejected, a rejected submission saves nothing and reports a nonempty
error mapping, and a fully valid purchase form is accepted. -/
theorem validation_acceptance_and_rejection_witness :
    (purchaseValidate badHensForm).2 = false ∧
    (purchaseValidate fracHensForm).2 = false ∧
    purchaseHandleSubmit none badHensForm "2024-06-01T08:00:00Z" = none ∧
    (purchaseValidate badHensForm).1 ≠ noPurchaseErrors ∧
    (purchaseValidate samplePForm).2 = true := by
  have hbad : (purchaseValidate badHensForm).2 = false := by
    norm_num [purchaseValidate, reqPosIntBad, reqPosBad, fieldNum, badHensForm]
  have hfrac : (purchaseValidate fracHensForm).2 = false := by
    have hden : ((5 : ℚ)/2).den = 2 := by norm_num
    norm_num [purchaseValidate, reqPosIntBad, reqPosBad, fieldNum, fracHensForm, hden]
  have h3 := validation_acceptance_and_rejection.2.2.1 none badHensForm
    "2024-06-01T08:00:00Z" hbad
  refine ⟨hbad, hfrac, h3.1, h3.2, ?_⟩
  exact (validation_acceptance_and_rejection.1 samplePForm).mpr
    ⟨by decide, by norm_num [samplePForm, fieldNum]⟩

/-- C9: the consistency warning fires exactly when the trial-derived meat
sold exceeds the live weight — for a submitted record the warning
condition coincides with the derived `meatSold` exceeding
`totalLiveWeight` — and it never blocks submission: any form passing
`validate` is saved, warning or not, as the concrete oversold example
(live weight 50, price 10, cash 600) shows. -/
theorem meat_sold_warning_non_blocking :
    (∀ (r : WeeklyRecord) (f : SalesFormData) (now : String) (rec : WeeklyRecord),
        salesHandleSubmit r f now = some rec →
        ((calculateRecordMetrics rec).meatSold = some (estMeatSold f) ∧
         (salesWarning f = true ↔ rec.totalLiveWeight < estMeatSold f))) ∧
    (∀ (r : WeeklyRecord) (f : SalesFormData) (now : String),
        (salesValidate f).2 = true → (salesHandleSubmit r f now).isSome = true) ∧
    (salesWarning warnForm = true ∧ (salesValidate warnForm).2 = true) := by
  refine ⟨?_, ?_, ?_, ?_⟩
  · intro r f now rec h
    unfold salesHandleSubmit at h
    split at h
    · cases h
    · cases h
      constructor
      · simp [calculateRecordMetrics, estMeatSold, salesRevenuePreview, jsOrQ_zero]
      · simp [salesWarning, currentLiveWeight_eq, decide_eq_true_iff, gt_iff_lt]
  · intro r f now h
    simp [salesHandleSubmit, h]
  · norm_num [salesWarning, estMeatSold, salesRevenuePreview, currentLiveWeight,
      fieldNum, warnForm]
  · norm_num [salesValidate, reqPosIntBad, reqPosBad, negBad, salesGeneralBad,
      fieldNum, warnForm]

/-- Witness for C9: the warning-raising oversold form still submits
successfully. -/
theorem meat_sold_warning_non_blocking_witness :
    (salesHandleSubmit samplePurchase warnForm "2024-06-09T12:00:00Z").isSome = true :=
  meat_sold_warning_non_blocking.2.1 samplePurchase warnForm "2024-06-09T12:00:00Z"
    meat_sold_warning_non_blocking.2.2.2

/-- C10: `calculateRecordMetrics` changes at most the nine computed
fields: the identity, timestamps, flag and raw input fields of the result
all equal those of the input. -/
theorem calculateRecordMetrics_frame (r : WeeklyRecord) :
    (calculateRecordMetrics r).id = r.id ∧
    (calculateRecordMetrics r).weekDate = r.weekDate ∧
    (calculateRecordMetrics r).createdAt = r.createdAt ∧
    (calculateRecordMetrics r).salesCompletedAt = r.salesCompletedAt ∧
    (calculateRecordMetrics r).totalHens = r.totalHens ∧
    (calculateRecordMetrics r).totalLiveWeight = r.totalLiveWeight ∧
    (calculateRecordMetrics r).purchaseRate = r.purchaseRate ∧
    (calculateRecordMetrics r).isSalesEntryComplete = r.isSalesEntryComplete ∧
    (calculateRecordMetrics r).sellingPrice = r.sellingPrice ∧
    (calculateRecordMetrics r).cashCollected = r.cashCollected ∧
    (calculateRecordMetrics r).upiCollected = r.upiCollected ∧
    (calculateRecordMetrics r).expenseTea = r.expenseTea ∧
    (calculateRecordMetrics r).expenseFuel = r.expenseFuel := by
  by_cases h : r.isSalesEntryComplete = false <;> simp [calculateRecordMetrics, h]

end SundayChicken
